import Mathlib

/-!
# Verification of mock-server.py

A shallow embedding of the request-matching, lifecycle and logging logic of
`mock-server.py`, together with theorems settling the specification claims.

The embedding follows the source closely:
* `MockServer` mirrors the mutable per-instance state (`name`, `requests`,
  `requests_in_order`, `is_closed`).  Socket/network fields carry no
  observable state relevant to the claims and are omitted.
* `req_handler` mirrors `MockServer.req_handler`: it returns the post state,
  the `(status, headers, body)` triple (as `Option Response`, where `none`
  models an uncaught Python exception such as the `IndexError` from the
  unguarded `self.requests[0]` or the `ValueError` from unpacking a header
  without a colon), and the list of log messages emitted during the call
  (without the timestamp prefix added by `log`).
* `logger_run` mirrors `Logger.run` over the finite sequence of messages the
  queue will deliver.
-/

set_option autoImplicit false

namespace MockSpec

/-- One entry of a server's script.  Mirrors the JSON shape
`{"request": {"req": ...}, "response": {"status": ..., "headers": ...,
"body": ...}}`, with an absent `headers`/`body` key represented by `[]`
(the Python code treats `None` and `[]` identically via truthiness). -/
structure RequestSpec where
  req : String
  status : Nat
  headers : List String
  body : List String
deriving DecidableEq

/-- The mutable state of one `MockServer` instance (mock-server.py lines
176-184) that the claims are about: configured name, remaining script,
ordering mode and the `is_closed` flag. -/
structure MockServer where
  name : String
  requests : List RequestSpec
  requests_in_order : Bool
  is_closed : Bool
deriving DecidableEq

/-- The `(status_code, headers, body)` triple returned by `req_handler`.
`none` for `headers`/`body` models Python `None`. -/
structure Response where
  status : Nat
  headers : Option (List (String × String))
  body : Option (List String)
deriving DecidableEq

/-- Result of one call to `req_handler`: the post state of the instance, the
returned triple (`none` models an uncaught exception escaping the handler)
and the log messages emitted, in emission order. -/
structure HandlerResult where
  state : MockServer
  response : Option Response
  logs : List String
deriving DecidableEq

/-- Python `str.strip()`: remove whitespace from both ends. -/
def py_strip (s : String) : String :=
  String.mk
    (((s.toList.dropWhile Char.isWhitespace).reverse.dropWhile
        Char.isWhitespace).reverse)

/-- Python `str.upper()`: upper-case every character. -/
def py_upper (s : String) : String :=
  String.mk (s.toList.map Char.toUpper)

/-- `req_str = "%s %s" % (method.upper().strip(), path.strip())`
(line 252): the normalized "METHOD PATH" key. -/
def req_str (method path : String) : String :=
  py_strip (py_upper method) ++ " " ++ py_strip path

/-- The single-quote character (code point 39) that the source's log format
strings place around the server name. -/
def quote : String := String.singleton (Char.ofNat 39)

/-- The two log messages emitted by `MockServer.close` (lines 225, 228). -/
def close_logs (name : String) : List String :=
  [quote ++ name ++ quote ++ ": Closing socket.",
   quote ++ name ++ quote ++ ": Terminated."]

/-- `h.split(":", 1)` followed by unpacking into `(hdr_name, hdr_value)` and
stripping both sides (lines 296-298).  A string without a colon makes the
Python unpacking raise `ValueError`; modelled as `none`. -/
def split_header (h : String) : Option (String × String) :=
  match h.toList.findIdx? (· = ':') with
  | none => none
  | some i =>
      some (py_strip (String.mk (h.toList.take i)),
            py_strip (String.mk (h.toList.drop (i + 1))))

/-- The header-translation loop of `req_handler` (lines 293-299): every
`"Name: Value"` string is split on the first colon; the whole list fails if
any entry has no colon. -/
def parse_headers (hs : List String) : Option (List (String × String)) :=
  hs.mapM split_header

/-- Outcome of the request-lookup step of `req_handler` (lines 273-288). -/
inductive MatchResult where
  /-- A script entry was found: its index and the entry itself. -/
  | found (i : Nat) (r : RequestSpec)
  /-- No entry matched: the `return_error` paths. -/
  | notFound
  /-- Ordered mode with an empty script: the unguarded `self.requests[0]`
  access raises `IndexError`. -/
  | indexError
deriving DecidableEq

/-- The `for i, r in enumerate(self.requests)` scan of the unordered branch
(lines 281-284): first index whose `request.req` equals the key. -/
def find_match : List RequestSpec → String → Option (Nat × RequestSpec)
  | [], _ => none
  | r :: rs, key =>
      if r.req = key then some (0, r)
      else (find_match rs key).map (fun p => (p.1 + 1, p.2))

/-- The request-lookup step of `req_handler` (lines 273-288): ordered mode
compares the key against the head entry only (index 0 on success);
unordered mode scans for the first matching entry. -/
def match_step (requests : List RequestSpec) (ordered : Bool) (key : String) :
    MatchResult :=
  if ordered then
    match requests with
    | [] => .indexError
    | r0 :: _ => if r0.req ≠ key then .notFound else .found 0 r0
  else
    match find_match requests key with
    | none => .notFound
    | some (i, r) => .found i r

/-- `MockServer.return_error` (lines 230-238): log the failure and return
`400, None, [msg, "\n"]`.  The instance state is untouched. -/
def return_error (s : MockServer) (msg : String) : HandlerResult :=
  { state := s
    response := some { status := 400, headers := none, body := some [msg, "\n"] }
    logs := ["*** Error: " ++ msg] }

/-- Lines 290-316 of `req_handler`: response construction from the matched
entry, the success log, and — in ordered mode — removal of the matched entry
with self-close on exhaustion.  `r` is the matched entry at `req_index`. -/
def finish_match (s : MockServer) (key : String) (r : RequestSpec)
    (req_index : Nat) : HandlerResult :=
  match parse_headers r.headers with
  | none =>
      -- `hdr_name, hdr_value = h.split(":", 1)` raised ValueError:
      -- no log yet, no mutation, the exception escapes.
      { state := s, response := none, logs := [] }
  | some hdrs =>
      let body := String.intercalate "\n" r.body
      let success_log :=
        quote ++ s.name ++ quote ++ ": [" ++ key ++ "] - Resp: "
          ++ toString r.status ++ " (" ++ toString body.length ++ ")"
      let resp : Response :=
        { status := r.status, headers := some hdrs, body := some [body] }
      if s.requests_in_order then
        let remaining := s.requests.eraseIdx req_index
        if remaining.isEmpty then
          { state := { s with requests := remaining, is_closed := true }
            response := some resp
            logs := [success_log,
                quote ++ s.name ++ quote ++ ": All requests processed."]
              ++ close_logs s.name }
        else
          { state := { s with requests := remaining }
            response := some resp
            logs := [success_log] }
      else
        { state := s, response := some resp, logs := [success_log] }

/-- `MockServer.req_handler` (lines 240-316).  The incoming request body is
read from the socket and discarded by the source (lines 261-268); it affects
neither the returned triple nor the instance state, so it does not appear
here. -/
def req_handler (s : MockServer) (method path : String) : HandlerResult :=
  let key := req_str method path
  if key = "DELETE " ++ s.name then
    -- Control command (lines 256-259): close() then `return 200, None, None`.
    { state := { s with is_closed := true }
      response := some { status := 200, headers := none, body := none }
      logs := close_logs s.name }
  else
    match match_step s.requests s.requests_in_order key with
    | .indexError => { state := s, response := none, logs := [] }
    | .notFound =>
        if s.requests_in_order then
          return_error s (quote ++ s.name ++ quote ++ ": [" ++ key
            ++ "] Not the expected next request!")
        else
          return_error s (quote ++ s.name ++ quote ++ ": [" ++ key
            ++ "] Not an acceptable request!")
    | .found i r => finish_match s key r i

/-- The individual operations `MockServer.close` performs (lines 225-228),
in program order. -/
inductive CloseStep where
  | logMsg (msg : String)
  | setClosedTrue
  | socketClose
deriving DecidableEq

/-- The operation sequence of `MockServer.close` (lines 225-228): log, set
`is_closed = True`, close the socket, log. -/
def close_steps (name : String) : List CloseStep :=
  [ .logMsg (quote ++ name ++ quote ++ ": Closing socket."),
    .setClosedTrue,
    .socketClose,
    .logMsg (quote ++ name ++ quote ++ ": Terminated.") ]

/-- The `try/except` around `serve_forever` in `MockServer.run` (lines
201-212): an exception `e` raised by the socket machinery is swallowed iff
`is_closed` is already set, and re-raised (terminating the thread) iff not. -/
def run_catch (is_closed : Bool) (e : String) : Except String Unit :=
  if is_closed then Except.ok () else Except.error e

/-- `EXIT_MSG` (line 45): the logger's termination sentinel. -/
def EXIT_MSG : String := "@@@EXIT@@@"

/-- `log` (lines 319-325): the string actually enqueued is
`"%s %s" % (str(datetime.now()), msg)`. -/
def log_format (now msg : String) : String :=
  now ++ " " ++ msg

/-- `Logger.run` (lines 93-99) over the finite sequence of messages the
queue will deliver, in FIFO order: each message before the sentinel is
written as a line; dequeuing the sentinel returns.  The result is
`(lines written, number of messages dequeued)`.  An exhausted list models a
consumer still blocked on `LOG_QUEUE.get()`. -/
def logger_run : List String → List String × Nat
  | [] => ([], 0)
  | msg :: rest =>
      if msg = EXIT_MSG then ([], 1)
      else
        let p := logger_run rest
        (msg :: p.1, p.2 + 1)

/-! ## Helper lemmas -/

/-- `find_match` is sound and complete for "first index whose `req` equals
the key": it returns `(i, r)` exactly when `r` sits at index `i`, matches
the key, and every earlier entry does not. -/
theorem find_match_iff (rs : List RequestSpec) (key : String) :
    ∀ (i : Nat) (r : RequestSpec),
      find_match rs key = some (i, r) ↔
        (rs.get? i = some r ∧ r.req = key ∧
          ∀ j, j < i → ∀ rj, rs.get? j = some rj → rj.req ≠ key) := by
  induction rs with
  | nil => intro i r; simp [find_match]
  | cons r0 rs ih =>
    intro i r
    by_cases h0 : r0.req = key
    · constructor
      · intro h
        simp [find_match, h0] at h
        obtain ⟨hi, hr⟩ := h
        subst hi; subst hr
        exact ⟨by simp, h0, by intro j hj; omega⟩
      · rintro ⟨hg, hk, hfirst⟩
        cases i with
        | zero =>
          simp at hg
          subst hg
          simp [find_match, h0]
        | succ j =>
          exact absurd h0 (hfirst 0 (Nat.succ_pos j) r0 (by simp))
    · constructor
      · intro h
        simp [find_match, h0] at h
        obtain ⟨a, hf, ha⟩ := h
        subst ha
        obtain ⟨hg, hk, hfirst⟩ := (ih a r).mp hf
        refine ⟨by simpa using hg, hk, ?_⟩
        intro j hj rj hgj
        cases j with
        | zero =>
          simp at hgj
          subst hgj
          exact h0
        | succ j =>
          exact hfirst j (by omega) rj (by simpa using hgj)
      · rintro ⟨hg, hk, hfirst⟩
        cases i with
        | zero =>
          simp at hg
          subst hg
          exact absurd hk h0
        | succ j =>
          have hf := (ih j r).mpr
            ⟨by simpa using hg, hk,
              fun j2 hj2 rj hgj =>
                hfirst (j2 + 1) (by omega) rj (by simpa using hgj)⟩
          simp [find_match, h0, hf]

/-- `find_match` fails exactly when no entry matches the key. -/
theorem find_match_eq_none (rs : List RequestSpec) (key : String) :
    find_match rs key = none ↔ ∀ r ∈ rs, r.req ≠ key := by
  induction rs with
  | nil => simp [find_match]
  | cons r0 rs ih => by_cases h0 : r0.req = key <;> simp [find_match, h0, ih]

/-- Any entry returned by the lookup step has a `req` equal to the key. -/
theorem match_step_found_req {requests : List RequestSpec} {ordered : Bool}
    {key : String} {i : Nat} {r : RequestSpec}
    (h : match_step requests ordered key = .found i r) : r.req = key := by
  cases ordered with
  | false =>
    rcases hf : find_match requests key with _ | ⟨a, b⟩ <;>
      simp [match_step, hf] at h
    obtain ⟨hi, hr⟩ := h
    subst hr
    exact ((find_match_iff requests key a b).mp hf).2.1
  | true =>
    cases requests with
    | nil => simp [match_step] at h
    | cons r0 rest =>
      by_cases h0 : r0.req = key <;> simp [match_step, h0] at h
      obtain ⟨-, hr⟩ := h
      subst hr
      exact h0

/-- A producer message (timestamp, space, text) is never the sentinel:
the sentinel contains no space. -/
theorem log_format_ne_exit (now msg : String) : log_format now msg ≠ EXIT_MSG := by
  intro h
  have hmem : ' ' ∈ (log_format now msg).data := by
    simp [log_format, String.data_append]
  rw [h] at hmem
  simp [EXIT_MSG] at hmem

/-- `Logger.run` over a queue whose first sentinel sits after `ms`: it
writes exactly `ms` and dequeues `ms.length + 1` messages, regardless of
what sits behind the sentinel. -/
theorem logger_run_split (ms rest : List String) (h : ∀ m ∈ ms, m ≠ EXIT_MSG) :
    logger_run (ms ++ EXIT_MSG :: rest) = (ms, ms.length + 1) := by
  induction ms with
  | nil => simp [logger_run]
  | cons m ms ih =>
    have hm : m ≠ EXIT_MSG := h m (by simp)
    have ihm := ih (fun x hx => h x (by simp [hx]))
    simp [logger_run, hm, ihm]

/-! ## Claims -/

/-- C2: in any mode and any script state, a request whose normalized key
equals `"DELETE <name>"` closes the instance (`is_closed := true`), returns
status 200 with no body, emits only the two close messages, and bypasses
script matching entirely: the result does not inspect `requests` or the
mode, and the script is left untouched. -/
theorem control_command_closes (s : MockServer) (method path : String)
    (hctl : req_str method path = "DELETE " ++ s.name) :
    req_handler s method path =
      { state := { s with is_closed := true }
        response := some { status := 200, headers := none, body := none }
        logs := close_logs s.name } := by
  simp [req_handler, hctl]

/-- C2 witness: method `delete`, path ` s1 ` normalizes to `DELETE s1`
against an instance named `s1`. -/
theorem control_command_closes_witness :
    req_handler ⟨"s1", [], false, false⟩ "delete" " s1 " =
      { state := ⟨"s1", [], false, true⟩
        response := some { status := 200, headers := none, body := none }
        logs := close_logs "s1" } :=
  control_command_closes ⟨"s1", [], false, false⟩ "delete" " s1 " (by decide)

/-- C5: when no script entry matches a non-control request, the handler
responds 400 with a short diagnostic body, logs exactly one failure
message, and mutates nothing: the state (script and `is_closed` flag) is
returned unchanged. -/
theorem no_match_recoverable (s : MockServer) (method path : String)
    (hctl : req_str method path ≠ "DELETE " ++ s.name)
    (hfail : match_step s.requests s.requests_in_order (req_str method path)
      = .notFound) :
    ∃ msg, req_handler s method path =
      { state := s
        response := some { status := 400, headers := none, body := some [msg, "\n"] }
        logs := ["*** Error: " ++ msg] } := by
  cases ho : s.requests_in_order with
  | true =>
    rw [ho] at hfail
    refine ⟨quote ++ s.name ++ quote ++ ": [" ++ req_str method path
      ++ "] Not the expected next request!", ?_⟩
    simp [req_handler, hctl, hfail, ho, return_error]
  | false =>
    rw [ho] at hfail
    refine ⟨quote ++ s.name ++ quote ++ ": [" ++ req_str method path
      ++ "] Not an acceptable request!", ?_⟩
    simp [req_handler, hctl, hfail, ho, return_error]

/-- C5 witness: `GET /b` against an ordered instance expecting `GET /a`. -/
theorem no_match_recoverable_witness :
    ∃ msg, req_handler ⟨"s1", [⟨"GET /a", 200, [], []⟩], true, false⟩ "GET" "/b" =
      { state := ⟨"s1", [⟨"GET /a", 200, [], []⟩], true, false⟩
        response := some { status := 400, headers := none, body := some [msg, "\n"] }
        logs := ["*** Error: " ++ msg] } :=
  no_match_recoverable ⟨"s1", [⟨"GET /a", 200, [], []⟩], true, false⟩ "GET" "/b"
    (by decide) (by decide)

/-- C7: `close` sets the `is_closed` flag strictly before closing the
socket (operation order in `close_steps`), and the `run` loop swallows a
socket error exactly when the flag is already set, re-raising it exactly
when it is not. -/
theorem close_flag_before_socket (name e : String) (c : Bool) :
    (close_steps name).indexOf .setClosedTrue
      < (close_steps name).indexOf .socketClose
    ∧ (run_catch c e = Except.ok () ↔ c = true)
    ∧ (run_catch c e = Except.error e ↔ c = false) := by
  refine ⟨?_, ?_, ?_⟩
  · have h1 : (close_steps name).indexOf CloseStep.setClosedTrue = 1 := rfl
    have h2 : (close_steps name).indexOf CloseStep.socketClose = 2 := rfl
    rw [h1, h2]
    omega
  · cases c <;> simp [run_catch]
  · cases c <;> simp [run_catch]

/-- C9: in ordered mode the head access `self.requests[0]` is unguarded:
with an empty script every non-control request hits the out-of-bounds
access (modelled as an escaped exception: no response, no log, no
mutation); with a non-empty script the lookup never reaches it. -/
theorem ordered_empty_script_crash (s : MockServer) (method path : String)
    (hord : s.requests_in_order = true)
    (hctl : req_str method path ≠ "DELETE " ++ s.name) :
    (s.requests = [] →
      req_handler s method path = { state := s, response := none, logs := [] })
    ∧ (s.requests ≠ [] →
      match_step s.requests true (req_str method path) ≠ .indexError) := by
  constructor
  · intro hreq
    simp [req_handler, hctl, hord, hreq, match_step]
  · intro hreq
    cases hq : s.requests with
    | nil => exact absurd hq hreq
    | cons r0 rest =>
      by_cases h0 : r0.req = req_str method path <;> simp [match_step, h0]

/-- C9 witness: `GET /a` against an ordered instance with an empty
script. -/
theorem ordered_empty_script_crash_witness :
    req_handler ⟨"s1", [], true, false⟩ "GET" "/a" =
      { state := ⟨"s1", [], true, false⟩, response := none, logs := [] } :=
  (ordered_empty_script_crash ⟨"s1", [], true, false⟩ "GET" "/a" rfl (by decide)).1 rfl

/-- C10: a script entry whose request string is the instance's own control
key `"DELETE <name>"` is unreachable: a request carrying that key always
takes the control branch first (status 200, script untouched), and on any
other key the lookup step can only return an entry whose request string
equals that other key, never the control key — so such an entry is never
matched and never consumed. -/
theorem control_entry_unreachable (s : MockServer) (method path : String) :
    (req_str method path = "DELETE " ++ s.name →
      (req_handler s method path).state.requests = s.requests ∧
      (req_handler s method path).response =
        some { status := 200, headers := none, body := none })
    ∧ (req_str method path ≠ "DELETE " ++ s.name →
      ∀ i r, match_step s.requests s.requests_in_order (req_str method path)
          = .found i r →
        r.req ≠ "DELETE " ++ s.name) := by
  constructor
  · intro hctl
    simp [req_handler, hctl]
  · intro hctl i r hfound
    rw [match_step_found_req hfound]
    exact hctl

/-- C10 witness: an ordered instance whose head entry is `DELETE s1`; the
control request leaves the script untouched and answers 200. -/
theorem control_entry_unreachable_witness :
    (req_handler ⟨"s1", [⟨"DELETE s1", 200, [], []⟩], true, false⟩
        "DELETE" "s1").state.requests = [⟨"DELETE s1", 200, [], []⟩] ∧
    (req_handler ⟨"s1", [⟨"DELETE s1", 200, [], []⟩], true, false⟩
        "DELETE" "s1").response =
      some { status := 200, headers := none, body := none } :=
  (control_entry_unreachable ⟨"s1", [⟨"DELETE s1", 200, [], []⟩], true, false⟩
    "DELETE" "s1").1 (by decide)

/-- C1: ordered mode with a non-empty script: the lookup succeeds iff the
normalized "METHOD PATH" key equals the head entry's request string; on
success the matched index is 0, and the handler removes exactly the head
element from the remaining script. -/
theorem ordered_head_match (s : MockServer) (method path : String)
    (r0 : RequestSpec) (rest : List RequestSpec)
    (hord : s.requests_in_order = true)
    (hscript : s.requests = r0 :: rest)
    (hctl : req_str method path ≠ "DELETE " ++ s.name) :
    ((∃ i r, match_step s.requests true (req_str method path) = .found i r) ↔
      r0.req = req_str method path)
    ∧ (r0.req = req_str method path →
      match_step s.requests true (req_str method path) = .found 0 r0)
    ∧ (r0.req = req_str method path → (parse_headers r0.headers).isSome →
      (req_handler s method path).state.requests = rest) := by
  refine ⟨?_, ?_, ?_⟩
  · rw [hscript]
    by_cases h0 : r0.req = req_str method path <;> simp [match_step, h0]
  · intro h0
    rw [hscript]
    simp [match_step, h0]
  · intro h0 hph
    obtain ⟨hdrs, hhd⟩ := Option.isSome_iff_exists.mp hph
    have hms : match_step s.requests s.requests_in_order (req_str method path)
        = .found 0 r0 := by
      rw [hscript, hord]
      simp [match_step, h0]
    have hrh : req_handler s method path
        = finish_match s (req_str method path) r0 0 := by
      simp [req_handler, hctl, hms]
    rw [hrh]
    cases rest with
    | nil => simp [finish_match, hhd, hord, hscript]
    | cons r1 rs2 => simp [finish_match, hhd, hord, hscript]

/-- C1 witness: `GET /a` against an ordered one-entry script whose head is
`GET /a`; the head is removed and the remaining script is empty. -/
theorem ordered_head_match_witness :
    (req_handler ⟨"s1", [⟨"GET /a", 200, [], ["ok"]⟩], true, false⟩
        "GET" "/a").state.requests = [] :=
  (ordered_head_match ⟨"s1", [⟨"GET /a", 200, [], ["ok"]⟩], true, false⟩
      "GET" "/a" ⟨"GET /a", 200, [], ["ok"]⟩ [] rfl rfl (by decide)).2.2
    (by decide) (by decide)

/-- C3: unordered mode: the lookup returns exactly the first index whose
request string equals the key, fails iff no entry matches, and the handler
never mutates the instance state — the script is untouched (so entries can
match repeatedly) and `is_closed` is unchanged (so the instance never
self-closes from exhaustion). -/
theorem unordered_scan_no_mutation (s : MockServer) (method path : String)
    (hunord : s.requests_in_order = false)
    (hctl : req_str method path ≠ "DELETE " ++ s.name) :
    (∀ i r, match_step s.requests false (req_str method path) = .found i r ↔
      (s.requests.get? i = some r ∧ r.req = req_str method path ∧
        ∀ j, j < i → ∀ rj, s.requests.get? j = some rj →
          rj.req ≠ req_str method path))
    ∧ (match_step s.requests false (req_str method path) = .notFound ↔
      ∀ r ∈ s.requests, r.req ≠ req_str method path)
    ∧ (req_handler s method path).state = s := by
  refine ⟨?_, ?_, ?_⟩
  · intro i r
    constructor
    · intro h
      rcases hf : find_match s.requests (req_str method path) with _ | ⟨a, b⟩ <;>
        simp [match_step, hf] at h
      obtain ⟨hi, hr⟩ := h
      subst hi
      subst hr
      exact (find_match_iff s.requests (req_str method path) a b).mp hf
    · intro hprop
      have hf := (find_match_iff s.requests (req_str method path) i r).mpr hprop
      simp [match_step, hf]
  · constructor
    · intro h
      rcases hf : find_match s.requests (req_str method path) with _ | ⟨a, b⟩
      · exact (find_match_eq_none s.requests (req_str method path)).mp hf
      · simp [match_step, hf] at h
    · intro hnone
      have hf : find_match s.requests (req_str method path) = none :=
        (find_match_eq_none s.requests (req_str method path)).mpr hnone
      simp [match_step, hf]
  · rcases hms : match_step s.requests s.requests_in_order (req_str method path)
      with ⟨i, r⟩ | _ | _
    · have hrh : req_handler s method path
          = finish_match s (req_str method path) r i := by
        simp [req_handler, hctl, hms]
      rw [hrh]
      rcases hph : parse_headers r.headers with _ | hdrs <;>
        simp [finish_match, hph, hunord]
    · cases ho : s.requests_in_order with
      | false =>
        rw [ho] at hms
        simp [req_handler, hctl, hms, ho, return_error]
      | true =>
        rw [ho] at hms
        simp [req_handler, hctl, hms, ho, return_error]
    · simp [req_handler, hctl, hms]

/-- C3 witness: `GET /b` against an unordered two-entry script; the state
(script and flag) is returned unchanged. -/
theorem unordered_scan_no_mutation_witness :
    (req_handler
        ⟨"s1", [⟨"GET /a", 200, [], []⟩, ⟨"GET /b", 201, [], []⟩], false, false⟩
        "GET" "/b").state
      = ⟨"s1", [⟨"GET /a", 200, [], []⟩, ⟨"GET /b", 201, [], []⟩], false, false⟩ :=
  (unordered_scan_no_mutation
      ⟨"s1", [⟨"GET /a", 200, [], []⟩, ⟨"GET /b", 201, [], []⟩], false, false⟩
      "GET" "/b" rfl (by decide)).2.2

/-- C4: ordered mode, open instance, non-control request: the post state
is closed exactly when the match succeeded and emptied the remaining
script (a singleton script whose head matches and whose headers parse) —
the sole natural-termination trigger; in that case the completion message
is among the logs, the response for that final match is still produced,
and the remaining script is empty. -/
theorem ordered_exhaustion_closes (s : MockServer) (method path : String)
    (hord : s.requests_in_order = true)
    (hopen : s.is_closed = false)
    (hctl : req_str method path ≠ "DELETE " ++ s.name) :
    ((req_handler s method path).state.is_closed = true ↔
      ∃ r0, s.requests = [r0] ∧ r0.req = req_str method path ∧
        (parse_headers r0.headers).isSome)
    ∧ ((req_handler s method path).state.is_closed = true →
      (quote ++ s.name ++ quote ++ ": All requests processed.")
          ∈ (req_handler s method path).logs
      ∧ (req_handler s method path).response.isSome
      ∧ (req_handler s method path).state.requests = []) := by
  cases hq : s.requests with
  | nil =>
    have hrh : req_handler s method path
        = { state := s, response := none, logs := [] } := by
      simp [req_handler, hctl, hord, hq, match_step]
    rw [hrh]
    refine ⟨iff_of_false (by simp [hopen]) ?_, fun hcl => absurd hcl (by simp [hopen])⟩
    rintro ⟨r0, heq, -, -⟩
    simp at heq
  | cons r0 rest =>
    by_cases h0 : r0.req = req_str method path
    · have hms : match_step s.requests true (req_str method path)
          = .found 0 r0 := by
        rw [hq]
        simp [match_step, h0]
      have hrh : req_handler s method path
          = finish_match s (req_str method path) r0 0 := by
        simp [req_handler, hctl, hord, hms]
      rcases hph : parse_headers r0.headers with _ | hdrs
      · have hfin : finish_match s (req_str method path) r0 0
            = { state := s, response := none, logs := [] } := by
          simp [finish_match, hph]
        rw [hrh, hfin]
        refine ⟨iff_of_false (by simp [hopen]) ?_,
          fun hcl => absurd hcl (by simp [hopen])⟩
        rintro ⟨r1, heq, -, hsome⟩
        obtain ⟨h1, -⟩ : r0 = r1 ∧ rest = [] := by simpa using heq
        rw [← h1] at hsome
        simp [hph] at hsome
      · cases rest with
        | nil =>
          rw [hrh]
          constructor
          · apply iff_of_true
            · simp [finish_match, hph, hord, hq]
            · exact ⟨r0, rfl, h0, by simp [hph]⟩
          · intro hcl
            refine ⟨?_, ?_, ?_⟩ <;> simp [finish_match, hph, hord, hq, close_logs]
        | cons r1 rs2 =>
          rw [hrh]
          have hstate : (finish_match s (req_str method path) r0 0).state.is_closed
              = s.is_closed := by
            simp [finish_match, hph, hord, hq]
          refine ⟨iff_of_false (by simp [hstate, hopen]) ?_,
            fun hcl => absurd hcl (by simp [hstate, hopen])⟩
          rintro ⟨r2, heq, -, -⟩
          simp at heq
    · have hms : match_step s.requests true (req_str method path)
          = .notFound := by
        rw [hq]
        simp [match_step, h0]
      have hrh : req_handler s method path
          = return_error s (quote ++ s.name ++ quote ++ ": ["
              ++ req_str method path ++ "] Not the expected next request!") := by
        simp [req_handler, hctl, hord, hms]
      rw [hrh]
      refine ⟨iff_of_false (by simp [return_error, hopen]) ?_,
        fun hcl => absurd hcl (by simp [return_error, hopen])⟩
      rintro ⟨r1, heq, hreq, -⟩
      obtain ⟨h1, -⟩ : r0 = r1 ∧ rest = [] := by simpa using heq
      rw [← h1] at hreq
      exact h0 hreq

/-- C4 witness: an ordered singleton script `GET /a`; the matching request
closes the instance. -/
theorem ordered_exhaustion_closes_witness :
    (req_handler ⟨"s1", [⟨"GET /a", 200, [], ["ok"]⟩], true, false⟩
        "GET" "/a").state.is_closed = true :=
  (ordered_exhaustion_closes ⟨"s1", [⟨"GET /a", 200, [], ["ok"]⟩], true, false⟩
      "GET" "/a" rfl rfl (by decide)).1.mpr
    ⟨⟨"GET /a", 200, [], ["ok"]⟩, rfl, by decide, by decide⟩

/-- C6 counterexample: the control command `DELETE s1` is a processed
request, yet it produces two log messages (both emitted by `close`), not
exactly one. -/
theorem one_log_per_request_counterexample :
    (req_handler ⟨"s1", [], false, false⟩ "DELETE" "s1").logs.length = 2
    ∧ (req_handler ⟨"s1", [], false, false⟩ "DELETE" "s1").logs.length ≠ 1 := by
  decide

/-- C6 (amended): every request that yields a response produces at least
one log message, and the count is exactly one iff the request leaves the
instance open: a control command produces two messages (from `close`), and
an ordered-mode final match that empties the script produces four
(response log, completion log, and the two close messages). -/
theorem log_count_per_request (s : MockServer) (method path : String)
    (hopen : s.is_closed = false)
    (hresp : (req_handler s method path).response.isSome = true) :
    ((req_handler s method path).logs.length = 1 ∨
      (req_handler s method path).logs.length = 2 ∨
      (req_handler s method path).logs.length = 4)
    ∧ ((req_handler s method path).logs.length = 1 ↔
      (req_handler s method path).state.is_closed = false) := by
  by_cases hctl : req_str method path = "DELETE " ++ s.name
  · have hrh : req_handler s method path =
        { state := { s with is_closed := true }
          response := some { status := 200, headers := none, body := none }
          logs := close_logs s.name } := by
      simp [req_handler, hctl]
    rw [hrh]
    simp [close_logs]
  · rcases hms : match_step s.requests s.requests_in_order (req_str method path)
      with ⟨i, r⟩ | _ | _
    · have hrh : req_handler s method path
          = finish_match s (req_str method path) r i := by
        simp [req_handler, hctl, hms]
      rw [hrh] at hresp ⊢
      rcases hph : parse_headers r.headers with _ | hdrs
      · simp [finish_match, hph] at hresp
      · cases ho : s.requests_in_order with
        | false => simp [finish_match, hph, ho, hopen]
        | true =>
          cases he : (s.requests.eraseIdx i).isEmpty with
          | false => simp [finish_match, hph, ho, he, hopen]
          | true => simp [finish_match, hph, ho, he, close_logs]
    · cases ho : s.requests_in_order with
      | false =>
        rw [ho] at hms
        have hrh : req_handler s method path
            = return_error s (quote ++ s.name ++ quote ++ ": ["
                ++ req_str method path ++ "] Not an acceptable request!") := by
          simp [req_handler, hctl, hms, ho]
        rw [hrh]
        simp [return_error, hopen]
      | true =>
        rw [ho] at hms
        have hrh : req_handler s method path
            = return_error s (quote ++ s.name ++ quote ++ ": ["
                ++ req_str method path ++ "] Not the expected next request!") := by
          simp [req_handler, hctl, hms, ho]
        rw [hrh]
        simp [return_error, hopen]
    · have hrh : req_handler s method path
          = { state := s, response := none, logs := [] } := by
        simp [req_handler, hctl, hms]
      rw [hrh] at hresp
      simp at hresp

/-- C6 witness: an unordered match produces exactly one log message and
leaves the instance open. -/
theorem log_count_per_request_witness :
    ((req_handler ⟨"s1", [⟨"GET /a", 200, [], []⟩], false, false⟩
        "GET" "/a").logs.length = 1 ∨
      (req_handler ⟨"s1", [⟨"GET /a", 200, [], []⟩], false, false⟩
        "GET" "/a").logs.length = 2 ∨
      (req_handler ⟨"s1", [⟨"GET /a", 200, [], []⟩], false, false⟩
        "GET" "/a").logs.length = 4)
    ∧ ((req_handler ⟨"s1", [⟨"GET /a", 200, [], []⟩], false, false⟩
        "GET" "/a").logs.length = 1 ↔
      (req_handler ⟨"s1", [⟨"GET /a", 200, [], []⟩], false, false⟩
        "GET" "/a").state.is_closed = false) :=
  log_count_per_request ⟨"s1", [⟨"GET /a", 200, [], []⟩], false, false⟩
    "GET" "/a" rfl (by decide)

/-- C8: for any run in which the producers enqueue timestamped messages
and the sentinel is enqueued once at the end (after all producers are
done), the consumer writes one line per message dequeued before the first
sentinel, never writes the sentinel, and stops after dequeuing exactly the
messages plus the sentinel (no further reads); the queue holds the
sentinel exactly once, since no timestamped producer message can equal
it. -/
theorem logger_sentinel_protocol (msgs : List (String × String)) :
    (logger_run (msgs.map (fun p => log_format p.1 p.2) ++ [EXIT_MSG])).1 =
      msgs.map (fun p => log_format p.1 p.2)
    ∧ EXIT_MSG ∉
      (logger_run (msgs.map (fun p => log_format p.1 p.2) ++ [EXIT_MSG])).1
    ∧ (logger_run (msgs.map (fun p => log_format p.1 p.2) ++ [EXIT_MSG])).2 =
      msgs.length + 1
    ∧ (msgs.map (fun p => log_format p.1 p.2) ++ [EXIT_MSG]).count EXIT_MSG
      = 1 := by
  have hne : ∀ m ∈ msgs.map (fun p => log_format p.1 p.2), m ≠ EXIT_MSG := by
    intro m hm
    obtain ⟨p, hp, hpm⟩ := List.mem_map.mp hm
    exact hpm ▸ log_format_ne_exit p.1 p.2
  have hrun := logger_run_split (msgs.map (fun p => log_format p.1 p.2)) [] hne
  refine ⟨?_, ?_, ?_, ?_⟩
  · rw [hrun]
  · rw [hrun]
    intro hmem
    exact hne EXIT_MSG hmem rfl
  · rw [hrun]
    simp
  · rw [List.count_append]
    have h0 : (msgs.map (fun p => log_format p.1 p.2)).count EXIT_MSG = 0 :=
      List.count_eq_zero.mpr (fun hmem => hne EXIT_MSG hmem rfl)
    simp [h0]

end MockSpec
